import Mathlib

/-!
Shallow embedding of the batch-transfer engine of the repository
masterise-plus/sfmc-migrate.

The repository holds two Python scripts that move query results from
PostgreSQL to an analytical store in bounded batches with a resumable
checkpoint:

* `src/hello.py` — `ingest_pg_to_bq_auto` (destination: BigQuery via
  `pandas_gbq.to_gbq`), per-table checkpoint files
  `checkpoint_<table with dots replaced>.json`.
* `src/pg_to_clickhouse.py` — `ingest_query_to_clickhouse` (destination:
  ClickHouse via `clickhouse_connect`), a single checkpoint file
  `ch_ingestion_checkpoint.json` whose record stores a `table_name` field,
  plus the type mapper `pg_type_to_ch_type` and the schema generator
  `get_create_table_sql`.

The external collaborators (PostgreSQL, BigQuery, ClickHouse, the
filesystem) are modelled by an `Env`: the source is a stable result set of
`srcRows` rows; `SELECT COUNT(*)` returns `srcRows`; a paged fetch
`LIMIT limit OFFSET offset` returns `min limit (srcRows - offset)` rows
(and raises, as PostgreSQL does, when the limit or offset is negative);
injected failure flags reproduce connection/query errors.  The checkpoint
file is a `Store`: `none` = no file, `some none` = a file whose contents
`json.load` cannot parse, `some (some cp)` = a parseable record.  Each run
returns its outcome, the final store contents and a trace of the
observable source/destination/store operations in execution order.

Machine integers are modelled as `Int`/`Nat` (Python integers are
unbounded, so no wrap-around is involved); Python `//` is `Int.fdiv`
(floor division), and `//` by zero raises `ZeroDivisionError`.
-/

/-- Python exception kinds that the two scripts can raise or propagate. -/
inductive PyErr where
  /-- the `ValueError` raised by `validate_bq_table_name` (hello.py line 92). -/
  | valueError
  /-- the `ZeroDivisionError` from `(total_rows + batch_size - 1) // batch_size`
      when `batch_size = 0`. -/
  | zeroDivision
  /-- a `json.JSONDecodeError` escaping `json.load` in `load_checkpoint`. -/
  | jsonDecode
  /-- an exception from the source side (count or paged fetch). -/
  | sourceError
  /-- an exception from the destination write
      (`pandas_gbq.to_gbq` / `ch_client.insert`). -/
  | destError
deriving DecidableEq, Repr

/-- The checkpoint record serialized by `save_checkpoint` in both scripts:
`table_name` (stored as `bq_dataset_table` in hello.py and as `table_name`
in pg_to_clickhouse.py), `last_completed_batch`, `total_uploaded`
(modelled as `Option` because both loaders read it with
`checkpoint.get('total_uploaded', start_batch * batch_size)`, so the field
may be missing from a record), `total_rows` and `batch_size`.
The `bq_project_id` field of hello.py is never read back and is omitted. -/
structure Checkpoint where
  table_name : String
  last_completed_batch : Int
  total_uploaded : Option Int
  total_rows : Int
  batch_size : Int
deriving DecidableEq, Repr

/-- Contents of a checkpoint file on disk: `none` = bytes that
`json.load` fails to parse, `some cp` = a well-formed record. -/
abbrev RawCheckpoint := Option Checkpoint

/-- State of the checkpoint file: `none` = the file does not exist. -/
abbrev Store := Option RawCheckpoint

/-- Run outcome: the Python return value (`total_uploaded` for
`ingest_query_to_clickhouse`, and the `total_uploaded` figure printed in
the final summary for `ingest_pg_to_bq_auto`; `0` on the empty-source
early return) or the exception that escaped. -/
inductive Outcome where
  | ok (v : Int)
  | err (e : PyErr)
deriving DecidableEq, Repr

/-- Observable operations against the source, the destination and the
checkpoint file, in execution order. -/
inductive Ev where
  /-- the per-batch paged query `... LIMIT limit OFFSET offset`
      for batch `batchIdx`. -/
  | fetch (batchIdx offset limit : Int)
  /-- the schema-sampling query `... LIMIT limit` issued by
      `ingest_query_to_clickhouse` before the loop (line 257). -/
  | schemaFetch (limit : Int)
  /-- a successful destination write of `rows` rows for batch `batchIdx`. -/
  | write (batchIdx : Int) (rows : Nat)
  /-- event: `save_checkpoint` wrote `cp` to the checkpoint file. -/
  | save (cp : Checkpoint)
  /-- event: `clear_checkpoint` removed an existing checkpoint file (both
      scripts only delete, and log, when the file exists). -/
  | clear
  /-- event: `DROP TABLE IF EXISTS table` (pg_to_clickhouse.py line 264). -/
  | dropT (table : String)
  /-- event: `CREATE TABLE IF NOT EXISTS table ...`
      (pg_to_clickhouse.py line 275). -/
  | createT (table : String)
deriving DecidableEq, Repr

/-- The external world of one run: the source query's stable result set
size and injected collaborator failures (connection/query errors), keyed
by batch index for the in-loop fetch and the destination write. -/
structure Env where
  srcRows : Nat
  countFails : Bool
  schemaFetchFails : Bool
  fetchFails : Int → Bool
  writeFails : Int → Bool

/-- Result of one run: outcome, final checkpoint-file state, event trace. -/
structure RunResult where
  out : Outcome
  store : Store
  trace : List Ev
deriving DecidableEq, Repr

/-- Rows returned by the paged query `LIMIT bs OFFSET b * bs` against a
stable result set of `srcRows` rows (the `len(df)` of the fetched frame),
for a nonnegative window. -/
def rowsAt (srcRows : Nat) (bs b : Int) : Nat :=
  min bs.toNat (srcRows - (b * bs).toNat)

/-- The batch loop shared by both scripts
(hello.py lines 168-243, pg_to_clickhouse.py lines 282-332), followed by
the final `clear_checkpoint()` and summary.  `fuel` is the number of loop
iterations `total_batches - start_batch` (Python `range(start, total)`),
`b` the current batch index, `uploaded` the running `total_uploaded`,
`store` the checkpoint file.  `saveOnErr` distinguishes hello.py, whose
`except` handlers call `save_checkpoint` with
`last_completed_batch = batch_num - 1` before re-raising, from
pg_to_clickhouse.py, whose handler only prints and re-raises.
A fetch raises when PostgreSQL rejects a negative LIMIT/OFFSET or when the
environment injects a failure; an empty batch is skipped (`continue`)
without a write or checkpoint. -/
def xferLoop (env : Env) (table : String) (bs : Int) (saveOnErr : Bool) :
    Nat → Int → Int → Store → RunResult
  | 0, _, uploaded, store =>
      match store with
      | some _ => ⟨.ok uploaded, none, [.clear]⟩
      | none => ⟨.ok uploaded, none, []⟩
  | fuel+1, b, uploaded, store =>
      let offset := b * bs
      if offset < 0 ∨ bs < 0 ∨ env.fetchFails b then
        if saveOnErr then
          let cp : Checkpoint :=
            ⟨table, b - 1, some uploaded, (env.srcRows : Int), bs⟩
          ⟨.err .sourceError, some (some cp), [.fetch b offset bs, .save cp]⟩
        else ⟨.err .sourceError, store, [.fetch b offset bs]⟩
      else
        let rows := rowsAt env.srcRows bs b
        if rows = 0 then
          let r := xferLoop env table bs saveOnErr fuel (b+1) uploaded store
          ⟨r.out, r.store, .fetch b offset bs :: r.trace⟩
        else if env.writeFails b then
          if saveOnErr then
            let cp : Checkpoint :=
              ⟨table, b - 1, some uploaded, (env.srcRows : Int), bs⟩
            ⟨.err .destError, some (some cp), [.fetch b offset bs, .save cp]⟩
          else ⟨.err .destError, store, [.fetch b offset bs]⟩
        else
          let uploaded2 := uploaded + (rows : Int)
          let cp : Checkpoint :=
            ⟨table, b, some uploaded2, (env.srcRows : Int), bs⟩
          let r := xferLoop env table bs saveOnErr fuel (b+1) uploaded2
              (some (some cp))
          ⟨r.out, r.store,
            .fetch b offset bs :: .write b rows :: .save cp :: r.trace⟩

/-- Python `'.' in table` (the check of `validate_bq_table_name`). -/
def pyContains (t : String) (c : Char) : Bool := t.data.contains c

/-- Python `table.replace('.', '_')` for the single-character pattern used
by `get_checkpoint_filename` (hello.py line 21). -/
def pyReplaceDot (t : String) : String :=
  ⟨t.data.map fun c => if c = '.' then '_' else c⟩

/-- Python `str.upper()` on the ASCII type names handled by the mapper. -/
def pyUpper (t : String) : String := ⟨t.data.map Char.toUpper⟩

/-- Python `t.startswith(p)`. -/
def pyStartsWith (t p : String) : Bool := p.data.isPrefixOf t.data

/-- Is `pat` an infix of `l` (Python's `pat in s` on strings)? -/
def listInfix [BEq α] : List α → List α → Bool
  | pat, [] => pat.isEmpty
  | pat, a :: t => pat.isPrefixOf (a :: t) || listInfix pat t

/-- Python `sub in t` for strings. -/
def pySubstr (t sub : String) : Bool := listInfix sub.data t.data

/-- hello.py `get_checkpoint_filename`:
`os.path.join(CHECKPOINT_DIR, f"checkpoint_{table.replace('.', '_')}.json")`
for a relative directory. -/
def get_checkpoint_filename (checkpointDir table : String) : String :=
  checkpointDir ++ "/checkpoint_" ++ pyReplaceDot table ++ ".json"

/-- pg_to_clickhouse.py line 32: the single module-level checkpoint file
name used by `save_checkpoint`, `load_checkpoint` and `clear_checkpoint`,
independent of the target table. -/
def CHECKPOINT_FILE : String := "ch_ingestion_checkpoint.json"

/-- The static PostgreSQL → ClickHouse type table of `pg_type_to_ch_type`
(pg_to_clickhouse.py lines 114-141), in the dict's insertion order, which
is the iteration order of the prefix-matching pass. -/
def type_mapping : List (String × String) :=
  [("INTEGER", "Int32"),
   ("BIGINT", "Int64"),
   ("SMALLINT", "Int16"),
   ("SERIAL", "Int32"),
   ("BIGSERIAL", "Int64"),
   ("REAL", "Float32"),
   ("DOUBLE PRECISION", "Float64"),
   ("NUMERIC", "Decimal(38, 10)"),
   ("DECIMAL", "Decimal(38, 10)"),
   ("BOOLEAN", "Bool"),
   ("VARCHAR", "String"),
   ("CHARACTER VARYING", "String"),
   ("CHAR", "String"),
   ("TEXT", "String"),
   ("DATE", "Date"),
   ("TIMESTAMP", "DateTime64(3)"),
   ("TIMESTAMP WITHOUT TIME ZONE", "DateTime64(3)"),
   ("TIMESTAMP WITH TIME ZONE", "DateTime64(3)"),
   ("TIME", "String"),
   ("UUID", "UUID"),
   ("JSON", "String"),
   ("JSONB", "String"),
   ("BYTEA", "String"),
   ("INET", "String"),
   ("CIDR", "String"),
   ("MACADDR", "String")]

/-- Model of `pg_type_to_ch_type` (pg_to_clickhouse.py lines 110-153): uppercase
the source type, try an exact match against `type_mapping`, then the
first key (in insertion order) of which the type is an extension
(`pg_type.startswith(pg_key)`), else `'String'`. -/
def pg_type_to_ch_type (pg : String) : String :=
  let p := pyUpper pg
  match type_mapping.lookup p with
  | some ch => ch
  | none =>
    match type_mapping.find? (fun kv => pyStartsWith p kv.1) with
    | some kv => kv.2
    | none => "String"

/-- The pandas-dtype fallback of `get_create_table_sql`
(pg_to_clickhouse.py lines 164-175): substring tests on the dtype name
in source order, else `'String'`. -/
def dtype_to_ch_type (dtype : String) : String :=
  if pySubstr dtype "int" then "Int64"
  else if pySubstr dtype "float" then "Float64"
  else if pySubstr dtype "bool" then "Bool"
  else if pySubstr dtype "datetime" then "DateTime64(3)"
  else "String"

/-- The per-column type resolution of `get_create_table_sql`
(pg_to_clickhouse.py lines 160-175): catalog type known → the static
table via `pg_type_to_ch_type`; otherwise infer from the runtime
(pandas) dtype of the sampled column. -/
def column_ch_type (pgColType : Option String) (dtype : String) : String :=
  match pgColType with
  | some t => pg_type_to_ch_type t
  | none => dtype_to_ch_type dtype

/-- Model of `ingest_pg_to_bq_auto` (src/hello.py lines 112-254).
Order of effects, as in the source: validate the table name contains a
dot; count rows; return on zero rows; compute
`total_batches = (total_rows + batch_size - 1) // batch_size`;
load the per-table checkpoint file (a parse failure propagates); a
loaded record resumes iff its `total_rows` and `batch_size` equal the
fresh plan, else the checkpoint is cleared and the run starts at batch 0;
then the batch loop with `save_checkpoint` in the `except` handlers. -/
def ingest_pg_to_bq_auto (env : Env) (table : String) (bs : Int)
    (store : Store) : RunResult :=
  if !(pyContains table '.') then ⟨.err .valueError, store, []⟩
  else if env.countFails then ⟨.err .sourceError, store, []⟩
  else if env.srcRows = 0 then ⟨.ok 0, store, []⟩
  else if bs = 0 then ⟨.err .zeroDivision, store, []⟩
  else
    let totalBatches := Int.fdiv ((env.srcRows : Int) + bs - 1) bs
    match store with
    | some none => ⟨.err .jsonDecode, store, []⟩
    | some (some cp) =>
      if cp.total_rows = (env.srcRows : Int) ∧ cp.batch_size = bs then
        let startBatch := cp.last_completed_batch + 1
        let already := cp.total_uploaded.getD (startBatch * bs)
        xferLoop env table bs true (totalBatches - startBatch).toNat
          startBatch already store
      else
        let r := xferLoop env table bs true totalBatches.toNat 0 0 none
        ⟨r.out, r.store, .clear :: r.trace⟩
    | none => xferLoop env table bs true totalBatches.toNat 0 0 none

/-- Model of `ingest_query_to_clickhouse` (src/pg_to_clickhouse.py lines 191-348).
Order of effects, as in the source: count rows; return 0 on zero rows;
compute `total_batches`; load the shared checkpoint file (a parse failure
propagates; a record whose `table_name` differs from the target is treated
as no checkpoint); only when a record was loaded and `replace` is false is
it validated against the plan (resume on match, `clear_checkpoint()` and
fresh start on mismatch); the schema-sampling fetch `LIMIT batch_size`
runs on every run; `DROP TABLE IF EXISTS` + `CREATE TABLE IF NOT EXISTS`
only when `replace and start_batch == 0`; then the batch loop whose
`except` handler re-raises without saving. -/
def ingest_query_to_clickhouse (env : Env) (table : String) (bs : Int)
    (replaceMode : Bool) (store : Store) : RunResult :=
  if env.countFails then ⟨.err .sourceError, store, []⟩
  else if env.srcRows = 0 then ⟨.ok 0, store, []⟩
  else if bs = 0 then ⟨.err .zeroDivision, store, []⟩
  else
    let totalBatches := Int.fdiv ((env.srcRows : Int) + bs - 1) bs
    match store with
    | some none => ⟨.err .jsonDecode, store, []⟩
    | _ =>
      let cpo : Option Checkpoint :=
        match store with
        | some (some cp) => if cp.table_name = table then some cp else none
        | _ => none
      let dec : Int × Int × Store × List Ev :=
        match cpo with
        | some cp =>
          if replaceMode then (0, 0, store, [])
          else if cp.total_rows = (env.srcRows : Int) ∧
              cp.batch_size = bs then
            (cp.last_completed_batch + 1,
             cp.total_uploaded.getD ((cp.last_completed_batch + 1) * bs),
             store, [])
          else (0, 0, none, [.clear])
        | none => (0, 0, store, [])
      let startBatch := dec.1
      let already := dec.2.1
      let store1 := dec.2.2.1
      let tr1 := dec.2.2.2
      if bs < 0 ∨ env.schemaFetchFails then
        ⟨.err .sourceError, store1, tr1 ++ [.schemaFetch bs]⟩
      else
        let tr2 := tr1 ++ [.schemaFetch bs]
        let tr3 := if replaceMode ∧ startBatch = 0 then
            tr2 ++ [.dropT table, .createT table]
          else tr2
        let r := xferLoop env table bs false
            (totalBatches - startBatch).toNat startBatch already store1
        ⟨r.out, r.store, tr3 ++ r.trace⟩

/-- Ceiling division over naturals: the plan's
`(total_rows + batch_size - 1) // batch_size` for a positive batch size. -/
def totalBatchesN (s B : Nat) : Nat := (s + B - 1) / B

/-- Row count of `f` consecutive batch windows of width `B` starting at
batch index `n`, over a result set of `s` rows. -/
def segRowsN (s B : Nat) : Nat → Nat → Nat
  | 0, _ => 0
  | f+1, n => min B (s - n * B) + segRowsN s B f (n+1)

/-- The list of integers b, b+1, ..., b+f-1. -/
def intRange (b : Int) : Nat → List Int
  | 0 => []
  | f+1 => b :: intRange (b+1) f

/-- The trace of a failure-free run of the batch loop from batch `b` with
`fuel` iterations and running total `uploaded`; `hadCp` tells whether a
checkpoint file exists (so whether the final `clear_checkpoint` deletes
and logs). -/
def canonSeg (env : Env) (table : String) (bs : Int) :
    Nat → Int → Int → Bool → List Ev
  | 0, _, _, hadCp => if hadCp then [.clear] else []
  | f+1, b, uploaded, hadCp =>
    let rows := rowsAt env.srcRows bs b
    if rows = 0 then
      .fetch b (b * bs) bs :: canonSeg env table bs f (b+1) uploaded hadCp
    else
      let cp : Checkpoint :=
        ⟨table, b, some (uploaded + (rows : Int)), (env.srcRows : Int), bs⟩
      .fetch b (b * bs) bs :: .write b rows :: .save cp ::
        canonSeg env table bs f (b+1) (uploaded + (rows : Int)) true

/-- Batch indices of the per-batch fetches in a trace. -/
def fetchedBatches : List Ev → List Int
  | [] => []
  | .fetch b _ _ :: t => b :: fetchedBatches t
  | _ :: t => fetchedBatches t

/-- Batch indices of the successful destination writes in a trace. -/
def writtenBatches : List Ev → List Int
  | [] => []
  | .write b _ :: t => b :: writtenBatches t
  | _ :: t => writtenBatches t

/-- Schema-mutating events (`DROP TABLE` / `CREATE TABLE`) of a trace. -/
def schemaEvents : List Ev → List Ev
  | [] => []
  | .dropT t :: l => .dropT t :: schemaEvents l
  | .createT t :: l => .createT t :: schemaEvents l
  | _ :: l => schemaEvents l

/-- The checkpoint discipline of §4.5/§5 of the spec, as a scan over a
trace.  `cur` is the index of the last completed batch acknowledged by a
persisted checkpoint, `upl` the uploaded total it records.  A per-batch
fetch must target exactly `cur + 1` (ascending order, and no new fetch
before the prior batch's checkpoint is persisted); a successful write must
target `cur + 1` and be immediately followed by a `save` recording that
batch and the incremented total; a standalone `save` (the rollback save of
hello.py's error handlers) must re-assert the current state, so every
persisted checkpoint describes a contiguous prefix of completed batches. -/
def ckptDiscipline : Int → Int → List Ev → Bool
  | _, _, [] => true
  | cur, upl, .fetch b _ _ :: t =>
      b == cur + 1 && ckptDiscipline cur upl t
  | cur, upl, .write b r :: t =>
      b == cur + 1 &&
      (match t with
       | .save cp :: t2 =>
           cp.last_completed_batch == b &&
           cp.total_uploaded == some (upl + (r : Int)) &&
           ckptDiscipline b (upl + (r : Int)) t2
       | _ => false)
  | cur, upl, .save cp :: t =>
      cp.last_completed_batch == cur && cp.total_uploaded == some upl &&
      ckptDiscipline cur upl t
  | cur, upl, _ :: t => ckptDiscipline cur upl t

/-- A failure-free environment over a stable result set of `s` rows. -/
def envNF (s : Nat) : Env :=
  ⟨s, false, false, fun _ => false, fun _ => false⟩

/-- An environment whose only failure is at batch `k`: at its fetch when
`atWrite` is false, at its destination write when `atWrite` is true. -/
def envFailAt (s : Nat) (k : Int) (atWrite : Bool) : Env :=
  ⟨s, false, false,
   fun i => !atWrite && i == k,
   fun i => atWrite && i == k⟩

theorem rowsAt_natCast (s B n : Nat) :
    rowsAt s (B : Int) (n : Int) = min B (s - n * B) := by
  unfold rowsAt
  have h1 : ((n : Int) * (B : Int)) = ((n * B : Nat) : Int) := by push_cast; ring
  rw [h1, Int.toNat_natCast, Int.toNat_natCast]

theorem plan_bounds (s B : Nat) (hB : 0 < B) :
    s ≤ totalBatchesN s B * B ∧ totalBatchesN s B * B < s + B := by
  unfold totalBatchesN
  set q := (s + B - 1) / B with hq
  have h1 : q * B ≤ s + B - 1 := Nat.div_mul_le_self _ _
  have h2 : s + B - 1 < (q + 1) * B :=
    (Nat.div_lt_iff_lt_mul hB).mp (Nat.lt_succ_self q)
  rw [Nat.add_one_mul] at h2
  generalize q * B = x at h1 h2 ⊢
  omega

theorem fdiv_plan (s B : Nat) (hB : 0 < B) (hs : 0 < s) :
    Int.fdiv ((s : Int) + (B : Int) - 1) (B : Int) = (totalBatchesN s B : Int) := by
  have h1 : ((s : Int) + (B : Int) - 1) = ((s + B - 1 : Nat) : Int) := by
    omega
  rw [h1, Int.fdiv_eq_ediv _ (by positivity)]
  unfold totalBatchesN
  rw [Int.ofNat_ediv]

theorem segRowsN_eq (s B : Nat) (hB : 0 < B) :
    ∀ f n, segRowsN s B f n = min s ((n + f) * B) - min s (n * B) := by
  intro f
  induction f with
  | zero => intro n; simp [segRowsN]
  | succ f ih =>
    intro n
    rw [segRowsN, ih (n + 1)]
    have h1 : (n + 1) * B = n * B + B := by ring
    have h2 : (n + 1 + f) * B = n * B + B + f * B := by ring
    have h3 : (n + (f + 1)) * B = n * B + B + f * B := by ring
    rw [h1, h2, h3]
    omega

theorem rows_pos (s B j : Nat) (hB : 0 < B) (hj : j < totalBatchesN s B) :
    rowsAt s (B : Int) (j : Int) ≠ 0 := by
  rw [rowsAt_natCast]
  have hb := plan_bounds s B hB
  have h1 : (j + 1) * B ≤ totalBatchesN s B * B :=
    Nat.mul_le_mul_right B hj
  have h2 : (j + 1) * B = j * B + B := by ring
  omega

theorem xferLoop_noFail (env : Env) (table : String) (B : Nat) (so : Bool)
    (hB : 0 < B)
    (hf : ∀ i, env.fetchFails i = false)
    (hw : ∀ i, env.writeFails i = false) :
    ∀ (f n : Nat) (u : Int) (st : Store),
      xferLoop env table (B : Int) so f (n : Int) u st =
        ⟨.ok (u + (segRowsN env.srcRows B f n : Int)), none,
         canonSeg env table (B : Int) f (n : Int) u st.isSome⟩ := by
  intro f
  induction f with
  | zero =>
    intro n u st
    cases st <;> simp [xferLoop, segRowsN, canonSeg]
  | succ f ih =>
    intro n u st
    have hcond : ¬(((n : Int) * (B : Int)) < 0 ∨ ((B : Int)) < 0 ∨
        env.fetchFails (n : Int) = true) := by
      push_neg
      refine ⟨by positivity, by positivity, by simp [hf]⟩
    have hcast : ((n : Int) + 1) = ((n + 1 : Nat) : Int) := by push_cast; ring
    rw [xferLoop, canonSeg]
    rw [if_neg hcond]
    by_cases hz : rowsAt env.srcRows (B : Int) (n : Int) = 0
    · rw [if_pos hz, if_pos hz]
      rw [hcast, ih (n + 1) u st]
      have hseg : segRowsN env.srcRows B (f + 1) n = segRowsN env.srcRows B f (n + 1) := by
        rw [segRowsN]
        rw [rowsAt_natCast] at hz
        omega
      simp [hseg]
    · rw [if_neg hz, if_neg hz]
      have hwn : ¬(env.writeFails (n : Int) = true) := by simp [hw]
      rw [if_neg hwn, hcast]
      simp only [ih]
      have hseg : ((segRowsN env.srcRows B (f + 1) n : Nat) : Int)
          = ((rowsAt env.srcRows (B : Int) (n : Int) : Nat) : Int)
            + ((segRowsN env.srcRows B f (n + 1) : Nat) : Int) := by
        rw [segRowsN, rowsAt_natCast]; push_cast; ring
      simp [hseg, add_assoc]

theorem xferLoop_failAt (env : Env) (table : String) (B : Nat) (hB : 0 < B)
    (k : Nat)
    (hf : ∀ i : Nat, i < k → env.fetchFails (i : Int) = false)
    (hw : ∀ i : Nat, i < k → env.writeFails (i : Int) = false)
    (hfail : env.fetchFails (k : Int) = true ∨
        (env.fetchFails (k : Int) = false ∧ env.writeFails (k : Int) = true ∧
         rowsAt env.srcRows (B : Int) (k : Int) ≠ 0)) :
    ∀ (f n : Nat) (u : Int) (st : Store), n ≤ k → k < n + f →
      (xferLoop env table (B : Int) true f (n : Int) u st).store
        = some (some ⟨table, (k : Int) - 1,
            some (u + (segRowsN env.srcRows B (k - n) n : Int)),
            (env.srcRows : Int), (B : Int)⟩) ∧
      ((xferLoop env table (B : Int) true f (n : Int) u st).out
          = .err .sourceError ∨
       (xferLoop env table (B : Int) true f (n : Int) u st).out
          = .err .destError) := by
  intro f
  induction f with
  | zero => intro n u st h1 h2; omega
  | succ f ih =>
    intro n u st hn hk
    rcases Nat.lt_or_ge n k with hlt | hge
    · -- n < k : this batch succeeds (or is skipped), recurse
      have hcond : ¬(((n : Int) * (B : Int)) < 0 ∨ ((B : Int)) < 0 ∨
          env.fetchFails (n : Int) = true) := by
        push_neg
        refine ⟨by positivity, by positivity, by simp [hf n hlt]⟩
      have hcast : ((n : Int) + 1) = ((n + 1 : Nat) : Int) := by push_cast; ring
      rw [xferLoop, if_neg hcond]
      by_cases hz : rowsAt env.srcRows (B : Int) (n : Int) = 0
      · rw [if_pos hz, hcast]
        have hih := ih (n + 1) u st (by omega) (by omega)
        have hseg : segRowsN env.srcRows B (k - n) n
            = segRowsN env.srcRows B (k - (n + 1)) (n + 1) := by
          have hkn : k - n = (k - (n + 1)) + 1 := by omega
          rw [hkn, segRowsN]
          rw [rowsAt_natCast] at hz
          omega
        simp only [hseg]
        exact hih
      · rw [if_neg hz]
        have hwn : ¬(env.writeFails (n : Int) = true) := by simp [hw n hlt]
        rw [if_neg hwn, hcast]
        have hih := ih (n + 1)
            (u + ((rowsAt env.srcRows (B : Int) (n : Int) : Nat) : Int))
            (some (some ⟨table, (n : Int),
              some (u + ((rowsAt env.srcRows (B : Int) (n : Int) : Nat) : Int)),
              (env.srcRows : Int), (B : Int)⟩)) (by omega) (by omega)
        have hseg : ((segRowsN env.srcRows B (k - n) n : Nat) : Int)
            = ((rowsAt env.srcRows (B : Int) (n : Int) : Nat) : Int)
              + ((segRowsN env.srcRows B (k - (n + 1)) (n + 1) : Nat) : Int) := by
          have hkn : k - n = (k - (n + 1)) + 1 := by omega
          rw [hkn, segRowsN, rowsAt_natCast]
          push_cast
          ring
        simp only [hseg, ← add_assoc]
        exact hih
    · -- n = k : the failing batch
      have hnk : n = k := by omega
      subst hnk
      rcases hfail with hfetch | ⟨hnf, hwr, hrz⟩
      · have hcond : (((n : Int) * (B : Int)) < 0 ∨ ((B : Int)) < 0 ∨
            env.fetchFails (n : Int) = true) := by
          right; right; exact hfetch
        rw [xferLoop, if_pos hcond]
        simp [segRowsN, Nat.sub_self]
      · have hcond : ¬(((n : Int) * (B : Int)) < 0 ∨ ((B : Int)) < 0 ∨
            env.fetchFails (n : Int) = true) := by
          push_neg
          refine ⟨by positivity, by positivity, by simp [hnf]⟩
        rw [xferLoop, if_neg hcond, if_neg hrz, if_pos hwr]
        simp [segRowsN, Nat.sub_self]

theorem xferLoop_discipline (env : Env) (table : String) (B : Nat)
    (so : Bool) :
    ∀ (f n : Nat) (u : Int) (st : Store),
      (∀ j : Nat, n ≤ j → j < n + f → rowsAt env.srcRows (B : Int) (j : Int) ≠ 0) →
      ckptDiscipline ((n : Int) - 1) u
        (xferLoop env table (B : Int) so f (n : Int) u st).trace = true := by
  intro f
  induction f with
  | zero =>
    intro n u st _
    cases st <;> simp [xferLoop, ckptDiscipline]
  | succ f ih =>
    intro n u st hpos
    have hcast : ((n : Int) + 1) = ((n + 1 : Nat) : Int) := by push_cast; ring
    have hsub : ((n : Int) - 1) + 1 = (n : Int) := by ring
    rw [xferLoop]
    by_cases hfet : (((n : Int) * (B : Int)) < 0 ∨ ((B : Int)) < 0 ∨
        env.fetchFails (n : Int) = true)
    · rw [if_pos hfet]
      cases so <;> simp [ckptDiscipline, hsub]
    · rw [if_neg hfet]
      have hz : ¬(rowsAt env.srcRows (B : Int) (n : Int) = 0) :=
        hpos n (le_refl n) (by omega)
      rw [if_neg hz]
      by_cases hwr : env.writeFails (n : Int) = true
      · rw [if_pos hwr]
        cases so <;> simp [ckptDiscipline, hsub]
      · rw [if_neg hwr, hcast]
        have hih := ih (n + 1)
            (u + ((rowsAt env.srcRows (B : Int) (n : Int) : Nat) : Int))
            (some (some ⟨table, (n : Int),
              some (u + ((rowsAt env.srcRows (B : Int) (n : Int) : Nat) : Int)),
              (env.srcRows : Int), (B : Int)⟩))
            (fun j h1 h2 => hpos j (by omega) (by omega))
        simp only [ckptDiscipline, hsub]
        simp only [Nat.cast_add, Nat.cast_one, add_sub_cancel_right] at hih
        simp [ckptDiscipline, hih]

theorem fetchedBatches_canonSeg (env : Env) (table : String) (bs : Int) :
    ∀ (f : Nat) (b : Int) (u : Int) (hc : Bool),
      fetchedBatches (canonSeg env table bs f b u hc) = intRange b f := by
  intro f
  induction f with
  | zero => intro b u hc; cases hc <;> simp [canonSeg, fetchedBatches, intRange]
  | succ f ih =>
    intro b u hc
    rw [canonSeg]
    by_cases hz : rowsAt env.srcRows bs b = 0
    · rw [if_pos hz]
      simp [fetchedBatches, intRange, ih]
    · rw [if_neg hz]
      simp [fetchedBatches, intRange, ih]

theorem writtenBatches_canonSeg (env : Env) (table : String) (B : Nat) :
    ∀ (f n : Nat) (u : Int) (hc : Bool),
      (∀ j : Nat, n ≤ j → j < n + f → rowsAt env.srcRows (B : Int) (j : Int) ≠ 0) →
      writtenBatches (canonSeg env table (B : Int) f (n : Int) u hc)
        = intRange (n : Int) f := by
  intro f
  induction f with
  | zero => intro n u hc _; cases hc <;> simp [canonSeg, writtenBatches, intRange]
  | succ f ih =>
    intro n u hc hpos
    rw [canonSeg]
    have hz : ¬(rowsAt env.srcRows (B : Int) (n : Int) = 0) :=
      hpos n (le_refl n) (by omega)
    rw [if_neg hz]
    have hcast : ((n : Int) + 1) = ((n + 1 : Nat) : Int) := by push_cast; ring
    rw [hcast]
    have hih := ih (n + 1) (u + ((rowsAt env.srcRows (B : Int) (n : Int) : Nat) : Int))
        true (fun j h1 h2 => hpos j (by omega) (by omega))
    simp only [writtenBatches, intRange]
    rw [hcast, hih]

theorem schemaEvents_canonSeg (env : Env) (table : String) (bs : Int) :
    ∀ (f : Nat) (b : Int) (u : Int) (hc : Bool),
      schemaEvents (canonSeg env table bs f b u hc) = [] := by
  intro f
  induction f with
  | zero => intro b u hc; cases hc <;> simp [canonSeg, schemaEvents]
  | succ f ih =>
    intro b u hc
    rw [canonSeg]
    by_cases hz : rowsAt env.srcRows bs b = 0
    · rw [if_pos hz]; simp [schemaEvents, ih]
    · rw [if_neg hz]; simp [schemaEvents, ih]

theorem hello_guards (env : Env) (table : String) (B : Nat)
    (htab : pyContains table '.' = true) (hcf : env.countFails = false)
    (hs : 0 < env.srcRows) (hB : 0 < B) :
    ¬((!pyContains table '.') = true) ∧ ¬(env.countFails = true) ∧
    ¬(env.srcRows = 0) ∧ ¬((B : Int) = 0) := by
  refine ⟨by simp [htab], by simp [hcf], by omega, by exact_mod_cast by omega⟩

theorem hello_fresh_unfold (env : Env) (table : String) (B : Nat)
    (htab : pyContains table '.' = true) (hcf : env.countFails = false)
    (hs : 0 < env.srcRows) (hB : 0 < B) :
    ingest_pg_to_bq_auto env table (B : Int) none
      = xferLoop env table (B : Int) true (totalBatchesN env.srcRows B) 0 0 none := by
  obtain ⟨h0, h1, h2, h3⟩ := hello_guards env table B htab hcf hs hB
  unfold ingest_pg_to_bq_auto
  rw [if_neg h0, if_neg h1, if_neg h2, if_neg h3]
  simp only [fdiv_plan env.srcRows B hB hs, Int.toNat_natCast]

theorem hello_resume_unfold (env : Env) (table : String) (B k : Nat)
    (cpu : Option Int)
    (htab : pyContains table '.' = true) (hcf : env.countFails = false)
    (hs : 0 < env.srcRows) (hB : 0 < B) :
    ingest_pg_to_bq_auto env table (B : Int)
        (some (some ⟨table, (k : Int) - 1, cpu, (env.srcRows : Int), (B : Int)⟩))
      = xferLoop env table (B : Int) true (totalBatchesN env.srcRows B - k)
          (k : Int) (cpu.getD ((k : Int) * (B : Int)))
          (some (some ⟨table, (k : Int) - 1, cpu, (env.srcRows : Int), (B : Int)⟩)) := by
  obtain ⟨h0, h1, h2, h3⟩ := hello_guards env table B htab hcf hs hB
  unfold ingest_pg_to_bq_auto
  rw [if_neg h0, if_neg h1, if_neg h2, if_neg h3]
  simp only [fdiv_plan env.srcRows B hB hs]
  rw [if_pos (⟨trivial, trivial⟩ : True ∧ True)]
  have hsb : ((k : Int) - 1) + 1 = (k : Int) := by ring
  rw [hsb]
  have htn : ((totalBatchesN env.srcRows B : Int) - (k : Int)).toNat
      = totalBatchesN env.srcRows B - k := by omega
  rw [htn]

theorem hello_stale_unfold (env : Env) (table : String) (B : Nat)
    (cp : Checkpoint)
    (htab : pyContains table '.' = true) (hcf : env.countFails = false)
    (hs : 0 < env.srcRows) (hB : 0 < B)
    (hmis : ¬(cp.total_rows = (env.srcRows : Int) ∧ cp.batch_size = (B : Int))) :
    ingest_pg_to_bq_auto env table (B : Int) (some (some cp))
      = ⟨(ingest_pg_to_bq_auto env table (B : Int) none).out,
         (ingest_pg_to_bq_auto env table (B : Int) none).store,
         .clear :: (ingest_pg_to_bq_auto env table (B : Int) none).trace⟩ := by
  obtain ⟨h0, h1, h2, h3⟩ := hello_guards env table B htab hcf hs hB
  unfold ingest_pg_to_bq_auto
  simp only [if_neg h0, if_neg h1, if_neg h2, if_neg h3]
  rw [if_neg hmis]

theorem ch_guards (env : Env) (B : Nat) (hcf : env.countFails = false)
    (hs : 0 < env.srcRows) (hB : 0 < B) (hsf : env.schemaFetchFails = false) :
    ¬(env.countFails = true) ∧ ¬(env.srcRows = 0) ∧ ¬((B : Int) = 0) ∧
    ¬(((B : Int)) < 0 ∨ env.schemaFetchFails = true) := by
  refine ⟨by simp [hcf], by omega, by exact_mod_cast by omega, ?_⟩
  push_neg
  exact ⟨by positivity, by simp [hsf]⟩

theorem ch_nocp_unfold (env : Env) (table : String) (B : Nat) (rm : Bool)
    (hcf : env.countFails = false) (hs : 0 < env.srcRows) (hB : 0 < B)
    (hsf : env.schemaFetchFails = false) :
    ingest_query_to_clickhouse env table (B : Int) rm none
      = ⟨(xferLoop env table (B : Int) false (totalBatchesN env.srcRows B) 0 0 none).out,
         (xferLoop env table (B : Int) false (totalBatchesN env.srcRows B) 0 0 none).store,
         .schemaFetch (B : Int) ::
           ((if rm then [.dropT table, .createT table] else []) ++
            (xferLoop env table (B : Int) false (totalBatchesN env.srcRows B) 0 0 none).trace)⟩ := by
  obtain ⟨h1, h2, h3, h4⟩ := ch_guards env B hcf hs hB hsf
  unfold ingest_query_to_clickhouse
  rw [if_neg h1, if_neg h2, if_neg h3]
  simp only [fdiv_plan env.srcRows B hB hs, Int.toNat_natCast]
  rw [if_neg h4]
  cases rm <;> simp

theorem ch_ignored_unfold (env : Env) (table : String) (B : Nat)
    (cp : Checkpoint)
    (hcf : env.countFails = false) (hs : 0 < env.srcRows) (hB : 0 < B)
    (hsf : env.schemaFetchFails = false) :
    ingest_query_to_clickhouse env table (B : Int) true (some (some cp))
      = ⟨(xferLoop env table (B : Int) false (totalBatchesN env.srcRows B) 0 0
            (some (some cp))).out,
         (xferLoop env table (B : Int) false (totalBatchesN env.srcRows B) 0 0
            (some (some cp))).store,
         .schemaFetch (B : Int) :: .dropT table :: .createT table ::
           (xferLoop env table (B : Int) false (totalBatchesN env.srcRows B) 0 0
              (some (some cp))).trace⟩ := by
  obtain ⟨h1, h2, h3, h4⟩ := ch_guards env B hcf hs hB hsf
  unfold ingest_query_to_clickhouse
  rw [if_neg h1, if_neg h2, if_neg h3]
  simp only [fdiv_plan env.srcRows B hB hs, Int.toNat_natCast]
  by_cases htn : cp.table_name = table
  · rw [if_pos htn, if_neg h4]
    simp
  · rw [if_neg htn, if_neg h4]
    simp

theorem ch_resume_unfold (env : Env) (table : String) (B k : Nat)
    (cpu : Option Int)
    (hcf : env.countFails = false) (hs : 0 < env.srcRows) (hB : 0 < B)
    (hsf : env.schemaFetchFails = false) :
    ingest_query_to_clickhouse env table (B : Int) false
        (some (some ⟨table, (k : Int) - 1, cpu, (env.srcRows : Int), (B : Int)⟩))
      = ⟨(xferLoop env table (B : Int) false (totalBatchesN env.srcRows B - k)
            (k : Int) (cpu.getD ((k : Int) * (B : Int)))
            (some (some ⟨table, (k : Int) - 1, cpu, (env.srcRows : Int), (B : Int)⟩))).out,
         (xferLoop env table (B : Int) false (totalBatchesN env.srcRows B - k)
            (k : Int) (cpu.getD ((k : Int) * (B : Int)))
            (some (some ⟨table, (k : Int) - 1, cpu, (env.srcRows : Int), (B : Int)⟩))).store,
         .schemaFetch (B : Int) ::
           (xferLoop env table (B : Int) false (totalBatchesN env.srcRows B - k)
              (k : Int) (cpu.getD ((k : Int) * (B : Int)))
              (some (some ⟨table, (k : Int) - 1, cpu, (env.srcRows : Int), (B : Int)⟩))).trace⟩ := by
  obtain ⟨h1, h2, h3, h4⟩ := ch_guards env B hcf hs hB hsf
  unfold ingest_query_to_clickhouse
  rw [if_neg h1, if_neg h2, if_neg h3]
  simp only [fdiv_plan env.srcRows B hB hs, eq_self_iff_true, if_true,
    Bool.false_eq_true, if_false, and_self]
  have hsb : ((k : Int) - 1) + 1 = (k : Int) := by ring
  rw [hsb]
  have htn : ((totalBatchesN env.srcRows B : Int) - (k : Int)).toNat
      = totalBatchesN env.srcRows B - k := by omega
  rw [htn, if_neg h4]
  simp

theorem ch_stale_unfold (env : Env) (table : String) (B : Nat)
    (cp : Checkpoint) (htn : cp.table_name = table)
    (hcf : env.countFails = false) (hs : 0 < env.srcRows) (hB : 0 < B)
    (hsf : env.schemaFetchFails = false)
    (hmis : ¬(cp.total_rows = (env.srcRows : Int) ∧ cp.batch_size = (B : Int))) :
    ingest_query_to_clickhouse env table (B : Int) false (some (some cp))
      = ⟨(xferLoop env table (B : Int) false (totalBatchesN env.srcRows B) 0 0 none).out,
         (xferLoop env table (B : Int) false (totalBatchesN env.srcRows B) 0 0 none).store,
         .clear :: .schemaFetch (B : Int) ::
           (xferLoop env table (B : Int) false (totalBatchesN env.srcRows B) 0 0 none).trace⟩ := by
  obtain ⟨h1, h2, h3, h4⟩ := ch_guards env B hcf hs hB hsf
  unfold ingest_query_to_clickhouse
  rw [if_neg h1, if_neg h2, if_neg h3]
  simp only [fdiv_plan env.srcRows B hB hs, Int.toNat_natCast, htn,
    eq_self_iff_true, if_true, Bool.false_eq_true, if_false]
  rw [if_neg hmis, if_neg h4]
  simp

theorem ch_othertable_unfold (env : Env) (table : String) (B : Nat) (rm : Bool)
    (cp : Checkpoint) (htn : ¬(cp.table_name = table))
    (hcf : env.countFails = false) (hs : 0 < env.srcRows) (hB : 0 < B)
    (hsf : env.schemaFetchFails = false) :
    ingest_query_to_clickhouse env table (B : Int) rm (some (some cp))
      = ⟨(xferLoop env table (B : Int) false (totalBatchesN env.srcRows B) 0 0
            (some (some cp))).out,
         (xferLoop env table (B : Int) false (totalBatchesN env.srcRows B) 0 0
            (some (some cp))).store,
         .schemaFetch (B : Int) ::
           ((if rm then [.dropT table, .createT table] else []) ++
            (xferLoop env table (B : Int) false (totalBatchesN env.srcRows B) 0 0
              (some (some cp))).trace)⟩ := by
  obtain ⟨h1, h2, h3, h4⟩ := ch_guards env B hcf hs hB hsf
  unfold ingest_query_to_clickhouse
  rw [if_neg h1, if_neg h2, if_neg h3]
  simp only [fdiv_plan env.srcRows B hB hs, Int.toNat_natCast]
  rw [if_neg htn]
  rw [if_neg h4]
  cases rm <;> simp

theorem segRowsN_from_zero (s B k : Nat) (hB : 0 < B) :
    segRowsN s B k 0 = min s (k * B) := by
  rw [segRowsN_eq s B hB]
  simp only [Nat.zero_add, Nat.zero_mul]
  omega

theorem seg_total (s B k : Nat) (hB : 0 < B) (hk : k ≤ totalBatchesN s B) :
    min s (k * B) + segRowsN s B (totalBatchesN s B - k) k = s := by
  rw [segRowsN_eq s B hB]
  have h1 := (plan_bounds s B hB).1
  have h2 : (k + (totalBatchesN s B - k)) = totalBatchesN s B := by omega
  rw [h2]
  have h3 : k * B ≤ totalBatchesN s B * B := Nat.mul_le_mul_right B hk
  omega

theorem totalBatchesN_zero (B : Nat) (hB : 0 < B) : totalBatchesN 0 B = 0 := by
  unfold totalBatchesN
  exact Nat.div_eq_of_lt (by omega)

theorem pos_of_lt_totalBatches (s B k : Nat) (hB : 0 < B)
    (hk : k < totalBatchesN s B) : 0 < s := by
  rcases Nat.eq_zero_or_pos s with h | h
  · subst h; rw [totalBatchesN_zero B hB] at hk; omega
  · exact h

theorem schemaEvents_xferLoop (env : Env) (table : String) (bs : Int)
    (so : Bool) :
    ∀ (f : Nat) (b : Int) (u : Int) (st : Store),
      schemaEvents (xferLoop env table bs so f b u st).trace = [] := by
  intro f
  induction f with
  | zero => intro b u st; cases st <;> simp [xferLoop, schemaEvents]
  | succ f ih =>
    intro b u st
    rw [xferLoop]
    by_cases hfet : ((b * bs) < 0 ∨ bs < 0 ∨ env.fetchFails b = true)
    · rw [if_pos hfet]; cases so <;> simp [schemaEvents]
    · rw [if_neg hfet]
      by_cases hz : rowsAt env.srcRows bs b = 0
      · rw [if_pos hz]; simp [schemaEvents, ih]
      · rw [if_neg hz]
        by_cases hwr : env.writeFails b = true
        · rw [if_pos hwr]; cases so <;> simp [schemaEvents]
        · rw [if_neg hwr]; simp [schemaEvents, ih]

/-- C8: the type mapper resolves a source type by exact match against the
static table, then by prefix match in the table's insertion order, and
defaults to the generic text type `String`; when no catalog type is known
the per-column resolution falls back to the runtime (pandas) dtype
category; in particular `VARCHAR(255)` maps to `String` (the destination
type registered for `VARCHAR`) and the unknown `CUSTOM_ENUM` maps to
`String`. -/
theorem c8_type_mapper_order :
    pg_type_to_ch_type "VARCHAR(255)" = "String" ∧
    pg_type_to_ch_type "CUSTOM_ENUM" = "String" ∧
    (∀ t ch, type_mapping.lookup (pyUpper t) = some ch →
      pg_type_to_ch_type t = ch) ∧
    (∀ t kv, type_mapping.lookup (pyUpper t) = none →
      type_mapping.find? (fun p => pyStartsWith (pyUpper t) p.1) = some kv →
      pg_type_to_ch_type t = kv.2) ∧
    (∀ t, type_mapping.lookup (pyUpper t) = none →
      type_mapping.find? (fun p => pyStartsWith (pyUpper t) p.1) = none →
      pg_type_to_ch_type t = "String") ∧
    (∀ t dt, column_ch_type (some t) dt = pg_type_to_ch_type t) ∧
    (∀ dt, column_ch_type none dt = dtype_to_ch_type dt) := by
  refine ⟨by decide, by decide, ?_, ?_, ?_, fun t dt => rfl, fun dt => rfl⟩
  · intro t ch h
    simp only [pg_type_to_ch_type]
    rw [h]
  · intro t kv h1 h2
    simp only [pg_type_to_ch_type]
    rw [h1, h2]
  · intro t h1 h2
    simp only [pg_type_to_ch_type]
    rw [h1, h2]

/-- Witness for C8: the exact-match clause applied to the concrete
catalog type `BIGINT`. -/
theorem c8_type_mapper_order_witness : pg_type_to_ch_type "BIGINT" = "Int64" :=
  c8_type_mapper_order.2.2.1 "BIGINT" "Int64" (by decide)

/-- C9: with a zero row count, both entry points return success
immediately: result `ok 0`, the checkpoint store untouched (no save, no
clear) and an empty trace (no fetch, no write, no drop/create), for any
batch size, store contents, mode, and any injected fetch/write/schema
failure flags. -/
theorem c9_zero_rows (table : String) (bs : Int) (store : Store) (rm : Bool)
    (sF : Bool) (fF wF : Int → Bool)
    (htab : pyContains table '.' = true) :
    ingest_pg_to_bq_auto ⟨0, false, sF, fF, wF⟩ table bs store
      = ⟨.ok 0, store, []⟩ ∧
    ingest_query_to_clickhouse ⟨0, false, sF, fF, wF⟩ table bs rm store
      = ⟨.ok 0, store, []⟩ := by
  constructor
  · unfold ingest_pg_to_bq_auto
    simp [htab]
  · unfold ingest_query_to_clickhouse
    simp

/-- Witness for C9 at a concrete job: table `d.t`, batch size 7, a corrupt
checkpoint file on disk, replace mode, and failure flags armed — the run
still returns `ok 0` without touching anything. -/
theorem c9_zero_rows_witness :
    ingest_pg_to_bq_auto ⟨0, false, true, fun i => i == 0, fun i => i == 0⟩
        "d.t" 7 (some none) = ⟨.ok 0, some none, []⟩ ∧
    ingest_query_to_clickhouse ⟨0, false, true, fun i => i == 0, fun i => i == 0⟩
        "d.t" 7 true (some none) = ⟨.ok 0, some none, []⟩ :=
  c9_zero_rows "d.t" 7 (some none) true true (fun i => i == 0) (fun i => i == 0)
    (by decide)

/-- C7 counterexample: a checkpoint file with unparseable contents is not
treated as absent — `json.load` raises and the run fails with a JSON
decode error, while the same job with no checkpoint file completes and
uploads its row. -/
theorem c7_counterexample :
    (ingest_pg_to_bq_auto (envNF 1) "d.t" 1 (some none)).out
      = .err .jsonDecode ∧
    (ingest_pg_to_bq_auto (envNF 1) "d.t" 1 none).out = .ok 1 := by
  exact ⟨by rfl, by rfl⟩

/-- C7 amended: loading returns absent only when no checkpoint file
exists; a persisted record that cannot be deserialized raises an error
that propagates and fails the job in both entry points (it is not treated
as absent), and in the ClickHouse path a record stored for a different
table is treated as absent and does not fail the job. -/
theorem c7_amended :
    (∀ (env : Env) (table : String) (bs : Int),
      pyContains table '.' = true → env.countFails = false →
      env.srcRows ≠ 0 → bs ≠ 0 →
      ingest_pg_to_bq_auto env table bs (some none)
        = ⟨.err .jsonDecode, some none, []⟩) ∧
    (∀ (env : Env) (table : String) (bs : Int) (rm : Bool),
      env.countFails = false → env.srcRows ≠ 0 → bs ≠ 0 →
      ingest_query_to_clickhouse env table bs rm (some none)
        = ⟨.err .jsonDecode, some none, []⟩) ∧
    (∀ (env : Env) (table : String) (B : Nat) (rm : Bool) (cp : Checkpoint),
      cp.table_name ≠ table → env.countFails = false → 0 < env.srcRows →
      0 < B → env.schemaFetchFails = false →
      (∀ i, env.fetchFails i = false) → (∀ i, env.writeFails i = false) →
      (ingest_query_to_clickhouse env table (B : Int) rm
          (some (some cp))).out
        = .ok ((segRowsN env.srcRows B (totalBatchesN env.srcRows B) 0 : Nat) : Int)) := by
  refine ⟨?_, ?_, ?_⟩
  · intro env table bs htab hcf hs hbs
    unfold ingest_pg_to_bq_auto
    have h0 : ¬((!pyContains table '.') = true) := by simp [htab]
    rw [if_neg h0, if_neg (by simp [hcf]), if_neg hs, if_neg hbs]
  · intro env table bs rm hcf hs hbs
    unfold ingest_query_to_clickhouse
    rw [if_neg (by simp [hcf]), if_neg hs, if_neg hbs]
  · intro env table B rm cp htn hcf hs hB hsf hf hw
    have hloop := xferLoop_noFail env table B false hB hf hw
        (totalBatchesN env.srcRows B) 0 0 (some (some cp))
    rw [Nat.cast_zero] at hloop
    rw [ch_othertable_unfold env table B rm cp htn hcf hs hB hsf, hloop]
    simp

/-- Witness for C7 amended: concrete corrupt-file failures in both entry
points and the other-table record treated as absent in a concrete
ClickHouse run. -/
theorem c7_amended_witness :
    ingest_pg_to_bq_auto (envNF 1) "d.t" 1 (some none)
      = ⟨.err .jsonDecode, some none, []⟩ ∧
    ingest_query_to_clickhouse (envNF 1) "t" 1 true (some none)
      = ⟨.err .jsonDecode, some none, []⟩ ∧
    (ingest_query_to_clickhouse (envNF 1) "t2" 1 true
        (some (some ⟨"t1", 0, some 5, 9, 1⟩))).out
      = .ok ((segRowsN 1 1 (totalBatchesN 1 1) 0 : Nat) : Int) :=
  ⟨c7_amended.1 (envNF 1) "d.t" 1 (by decide) (by rfl) (by decide) (by decide),
   c7_amended.2.1 (envNF 1) "t" 1 true (by rfl) (by decide) (by decide),
   c7_amended.2.2 (envNF 1) "t2" 1 true ⟨"t1", 0, some 5, 9, 1⟩ (by decide)
     (by rfl) (by decide) (by decide) (by rfl) (fun i => rfl) (fun i => rfl)⟩

/-- C6 counterexample: with the non-positive batch size −1 and 5 source
rows, `ingest_pg_to_bq_auto` does not fail at all — the computed batch
count is negative, the loop body never runs, and the job returns success
with zero uploads instead of an `InvalidConfiguration` failure. -/
theorem c6_counterexample :
    ingest_pg_to_bq_auto (envNF 5) "d.t" (-1) none = ⟨.ok 0, none, []⟩ := by
  decide

/-- C6 amended: neither entry point validates the batch size.  A batch
size of 0 makes the batch-count division raise `ZeroDivisionError` —
after the counting query but before any checkpoint write/clear or schema
change (store unchanged, empty trace).  A negative batch size is not
rejected: the hello path can return success with zero batches processed
(batch size −1, 5 rows), and the ClickHouse path fails at the
schema-sampling fetch with a plain source error. -/
theorem c6_amended :
    (∀ (env : Env) (table : String) (store : Store),
      pyContains table '.' = true → env.countFails = false →
      env.srcRows ≠ 0 →
      ingest_pg_to_bq_auto env table 0 store
        = ⟨.err .zeroDivision, store, []⟩) ∧
    (∀ (env : Env) (table : String) (store : Store) (rm : Bool),
      env.countFails = false → env.srcRows ≠ 0 →
      ingest_query_to_clickhouse env table 0 rm store
        = ⟨.err .zeroDivision, store, []⟩) ∧
    ingest_pg_to_bq_auto (envNF 5) "d.t" (-1) none = ⟨.ok 0, none, []⟩ ∧
    ingest_query_to_clickhouse (envNF 5) "t" (-1) true none
      = ⟨.err .sourceError, none, [.schemaFetch (-1)]⟩ := by
  refine ⟨?_, ?_, by decide, by decide⟩
  · intro env table store htab hcf hs
    unfold ingest_pg_to_bq_auto
    have h0 : ¬((!pyContains table '.') = true) := by simp [htab]
    rw [if_neg h0, if_neg (by simp [hcf]), if_neg hs, if_pos rfl]
  · intro env table store rm hcf hs
    unfold ingest_query_to_clickhouse
    rw [if_neg (by simp [hcf]), if_neg hs, if_pos rfl]

/-- Witness for C6 amended: the zero batch size failures at a concrete
job with a checkpoint record on disk, which is left untouched. -/
theorem c6_amended_witness :
    ingest_pg_to_bq_auto (envNF 5) "d.t" 0 (some (some ⟨"d.t", 0, some 2, 5, 2⟩))
      = ⟨.err .zeroDivision, some (some ⟨"d.t", 0, some 2, 5, 2⟩), []⟩ ∧
    ingest_query_to_clickhouse (envNF 5) "t" 0 false
        (some (some ⟨"t", 0, some 2, 5, 2⟩))
      = ⟨.err .zeroDivision, some (some ⟨"t", 0, some 2, 5, 2⟩), []⟩ :=
  ⟨c6_amended.1 (envNF 5) "d.t" (some (some ⟨"d.t", 0, some 2, 5, 2⟩))
      (by decide) (by rfl) (by decide),
   c6_amended.2.1 (envNF 5) "t" (some (some ⟨"t", 0, some 2, 5, 2⟩)) false
      (by rfl) (by decide)⟩

/-- C5 counterexample: the hello key normalization is not injective —
the distinct destination tables `a.b_c` and `a_b.c` produce the same
checkpoint filename — and in the ClickHouse path a completed run for
table `t2` deletes the checkpoint record stored for table `t1` (shared
`CHECKPOINT_FILE`). -/
theorem c5_counterexample :
    get_checkpoint_filename "." "a.b_c" = get_checkpoint_filename "." "a_b.c" ∧
    "a.b_c" ≠ "a_b.c" ∧
    (ingest_query_to_clickhouse (envNF 1) "t2" 1 true
        (some (some ⟨"t1", 0, some 5, 9, 1⟩))).store = none := by
  exact ⟨by decide, by decide, by rfl⟩

/-- C5 amended: the hello checkpoint key is a pure function of the
destination table (hence stable across runs), derived by replacing dots
with underscores, but it is not injective, so two tables with colliding
normalizations share a key; the ClickHouse path keys nothing on the
table: it uses the single file `CHECKPOINT_FILE` for every job, the
loader filters on the record's `table_name`, and a completed run for one
table deletes whatever record the shared file held for any other table. -/
theorem c5_amended :
    (∀ dir t, get_checkpoint_filename dir t
        = dir ++ "/checkpoint_" ++ pyReplaceDot t ++ ".json") ∧
    (∀ d t1 t2, pyReplaceDot t1 = pyReplaceDot t2 →
        get_checkpoint_filename d t1 = get_checkpoint_filename d t2) ∧
    get_checkpoint_filename "." "a.b_c" = get_checkpoint_filename "." "a_b.c" ∧
    CHECKPOINT_FILE = "ch_ingestion_checkpoint.json" ∧
    (∀ (env : Env) (table : String) (B : Nat) (rm : Bool) (cp : Checkpoint),
      cp.table_name ≠ table → env.countFails = false → 0 < env.srcRows →
      0 < B → env.schemaFetchFails = false →
      (∀ i, env.fetchFails i = false) → (∀ i, env.writeFails i = false) →
      (ingest_query_to_clickhouse env table (B : Int) rm
          (some (some cp))).store = none) := by
  refine ⟨fun dir t => rfl, ?_, by decide, rfl, ?_⟩
  · intro d t1 t2 h
    unfold get_checkpoint_filename
    rw [h]
  · intro env table B rm cp htn hcf hs hB hsf hf hw
    have hloop := xferLoop_noFail env table B false hB hf hw
        (totalBatchesN env.srcRows B) 0 0 (some (some cp))
    rw [Nat.cast_zero] at hloop
    rw [ch_othertable_unfold env table B rm cp htn hcf hs hB hsf, hloop]

/-- Witness for C5 amended: a completed ClickHouse run for `t2` deletes
the record stored for `t1`. -/
theorem c5_amended_witness :
    (ingest_query_to_clickhouse (envNF 3) "t2" 2 false
        (some (some ⟨"t1", 1, some 4, 9, 2⟩))).store = none :=
  c5_amended.2.2.2.2 (envNF 3) "t2" 2 false ⟨"t1", 1, some 4, 9, 2⟩
    (by decide) (by rfl) (by decide) (by decide) (by rfl)
    (fun i => rfl) (fun i => rfl)

/-- C10: a checkpoint record that passes plan validation but lacks the
`total_uploaded` field makes both entry points resume with the cumulative
count defaulted to `(last_completed_batch + 1) * batch_size` (here
`k * B` for a record whose resume point is batch `k`), so the reported
total is that default plus the rows of the remaining batches; concretely,
with 5 rows, batch size 2 and a record claiming all 3 batches done but
missing `total_uploaded`, both entry points report 6 uploaded rows even
though only 5 rows exist. -/
theorem c10_missing_total_uploaded (s B k : Nat) (table : String)
    (hB : 0 < B) (htab : pyContains table '.' = true) (hs : 0 < s) :
    (ingest_pg_to_bq_auto (envNF s) table (B : Int)
        (some (some ⟨table, (k : Int) - 1, none, (s : Int), (B : Int)⟩))).out
      = .ok ((k : Int) * (B : Int)
          + ((segRowsN s B (totalBatchesN s B - k) k : Nat) : Int)) ∧
    (ingest_query_to_clickhouse (envNF s) table (B : Int) false
        (some (some ⟨table, (k : Int) - 1, none, (s : Int), (B : Int)⟩))).out
      = .ok ((k : Int) * (B : Int)
          + ((segRowsN s B (totalBatchesN s B - k) k : Nat) : Int)) ∧
    (ingest_pg_to_bq_auto (envNF 5) "d.t" 2
        (some (some ⟨"d.t", 2, none, 5, 2⟩))).out = .ok 6 ∧
    (ingest_query_to_clickhouse (envNF 5) "t" 2 false
        (some (some ⟨"t", 2, none, 5, 2⟩))).out = .ok 6 ∧
    (ingest_pg_to_bq_auto (envNF 5) "d.t" 2
        (some (some ⟨"d.t", 2, none, 5, 2⟩))).out ≠ .ok 5 := by
  have hloop := xferLoop_noFail (envNF s) table B true hB
      (fun i => rfl) (fun i => rfl) (totalBatchesN s B - k) k
      ((none : Option Int).getD ((k : Int) * (B : Int)))
      (some (some ⟨table, (k : Int) - 1, none, (s : Int), (B : Int)⟩))
  have hloop2 := xferLoop_noFail (envNF s) table B false hB
      (fun i => rfl) (fun i => rfl) (totalBatchesN s B - k) k
      ((none : Option Int).getD ((k : Int) * (B : Int)))
      (some (some ⟨table, (k : Int) - 1, none, (s : Int), (B : Int)⟩))
  have hsrc : (envNF s).srcRows = s := rfl
  have hres := hello_resume_unfold (envNF s) table B k none htab rfl hs hB
  have hres2 := ch_resume_unfold (envNF s) table B k none rfl hs hB rfl
  rw [hsrc] at hres hres2 hloop hloop2
  refine ⟨?_, ?_, by rfl, by rfl, by decide⟩
  · rw [hres, hloop]
    simp [Option.getD]
  · rw [hres2, hloop2]
    simp [Option.getD]

/-- Witness for C10 at s=5, B=2, k=3 (record claims all batches done):
the defaulted resume count is 6 and the remaining segment is empty. -/
theorem c10_missing_total_uploaded_witness :
    (ingest_pg_to_bq_auto (envNF 5) "d.t" 2
        (some (some ⟨"d.t", (3 : Int) - 1, none, 5, 2⟩))).out
      = .ok ((3 : Int) * 2 + ((segRowsN 5 2 (totalBatchesN 5 2 - 3) 3 : Nat) : Int)) :=
  (c10_missing_total_uploaded 5 2 3 "d.t" (by decide) (by decide) (by decide)).1

/-- C3 counterexample: a ClickHouse append-mode run with a stale
checkpoint (stored `total_rows` 99 against a fresh plan of 1) clears the
checkpoint and starts at batch 0 as a fresh run, but performs no schema
initialization at all: no `DROP TABLE`/`CREATE TABLE` appears in the
trace, refuting the claim that schema initialization occurs. -/
theorem c3_counterexample :
    (ingest_query_to_clickhouse (envNF 1) "t" 1 false
        (some (some ⟨"t", 0, some 1, 99, 1⟩))).out = .ok 1 ∧
    schemaEvents (ingest_query_to_clickhouse (envNF 1) "t" 1 false
        (some (some ⟨"t", 0, some 1, 99, 1⟩))).trace = [] := by
  exact ⟨by rfl, by rfl⟩

/-- C3 amended: a checkpoint whose stored plan parameters differ from the
fresh plan is cleared and the run proceeds exactly as a fresh run (same
outcome, same final store, same trace prefixed by the clear) — but no
schema initialization occurs on this path: hello.py performs none at all,
and pg_to_clickhouse.py drops/creates only in replace mode, which skips
checkpoint validation entirely, so its mismatch branch (append mode)
issues no DROP/CREATE. -/
theorem c3_stale_checkpoint_amended (env : Env) (table : String) (B : Nat)
    (cp cp2 : Checkpoint)
    (htab : pyContains table '.' = true) (hcf : env.countFails = false)
    (hs : 0 < env.srcRows) (hB : 0 < B)
    (hsf : env.schemaFetchFails = false)
    (htn : cp2.table_name = table)
    (hmis : ¬(cp.total_rows = (env.srcRows : Int) ∧ cp.batch_size = (B : Int)))
    (hmis2 : ¬(cp2.total_rows = (env.srcRows : Int) ∧ cp2.batch_size = (B : Int))) :
    ingest_pg_to_bq_auto env table (B : Int) (some (some cp))
      = ⟨(ingest_pg_to_bq_auto env table (B : Int) none).out,
         (ingest_pg_to_bq_auto env table (B : Int) none).store,
         .clear :: (ingest_pg_to_bq_auto env table (B : Int) none).trace⟩ ∧
    ingest_query_to_clickhouse env table (B : Int) false (some (some cp2))
      = ⟨(ingest_query_to_clickhouse env table (B : Int) false none).out,
         (ingest_query_to_clickhouse env table (B : Int) false none).store,
         .clear :: (ingest_query_to_clickhouse env table (B : Int) false none).trace⟩ ∧
    schemaEvents (ingest_query_to_clickhouse env table (B : Int) false
        (some (some cp2))).trace = [] := by
  refine ⟨hello_stale_unfold env table B cp htab hcf hs hB hmis, ?_, ?_⟩
  · rw [ch_stale_unfold env table B cp2 htn hcf hs hB hsf hmis2,
      ch_nocp_unfold env table B false hcf hs hB hsf]
    simp
  · rw [ch_stale_unfold env table B cp2 htn hcf hs hB hsf hmis2]
    simp [schemaEvents, schemaEvents_xferLoop]

/-- Witness for C3 amended at a concrete stale checkpoint (stored plan
99/1 against fresh plan 1/1). -/
theorem c3_stale_checkpoint_amended_witness :
    ingest_pg_to_bq_auto (envNF 1) "d.t" 1 (some (some ⟨"d.t", 0, some 1, 99, 1⟩))
      = ⟨(ingest_pg_to_bq_auto (envNF 1) "d.t" 1 none).out,
         (ingest_pg_to_bq_auto (envNF 1) "d.t" 1 none).store,
         .clear :: (ingest_pg_to_bq_auto (envNF 1) "d.t" 1 none).trace⟩ ∧
    ingest_query_to_clickhouse (envNF 1) "d.t" 1 false
        (some (some ⟨"d.t", 0, some 1, 99, 1⟩))
      = ⟨(ingest_query_to_clickhouse (envNF 1) "d.t" 1 false none).out,
         (ingest_query_to_clickhouse (envNF 1) "d.t" 1 false none).store,
         .clear :: (ingest_query_to_clickhouse (envNF 1) "d.t" 1 false none).trace⟩ ∧
    schemaEvents (ingest_query_to_clickhouse (envNF 1) "d.t" 1 false
        (some (some ⟨"d.t", 0, some 1, 99, 1⟩))).trace = [] :=
  c3_stale_checkpoint_amended (envNF 1) "d.t" 1
      ⟨"d.t", 0, some 1, 99, 1⟩ ⟨"d.t", 0, some 1, 99, 1⟩
      (by decide) (by rfl) (by decide) (by decide) (by rfl) (by rfl)
      (by decide) (by decide)

/-- C2 counterexample: in a fresh ClickHouse run whose batch-0 fetch
fails (so the last fully completed batch is −1), the error propagates
with no checkpoint persisted at all — the store stays empty instead of
holding a record with `last_completed_batch = -1` — because the
pg_to_clickhouse error handler only logs and re-raises. -/
theorem c2_counterexample :
    (ingest_query_to_clickhouse (envFailAt 2 0 false) "t" 1 true none).store
      = none ∧
    (ingest_query_to_clickhouse (envFailAt 2 0 false) "t" 1 true none).out
      = .err .sourceError := by
  exact ⟨by rfl, by rfl⟩

/-- C2 amended: in the hello path the claim holds: a fetch or write
failure at batch `k` of a fresh run persists, before the error
propagates, a checkpoint with `last_completed_batch = k - 1` and
cumulative count equal to the rows of batches `0..k-1` (`min s (k*B)`),
and a subsequent failure-free run resumes at batch `k` and completes
with total `s`.  The ClickHouse path persists nothing in its handler:
the store after a failure holds only the checkpoint saved after the last
successful batch of the run, so when the failure strikes the run's first
batch and no checkpoint existed, none is persisted (see the
counterexample); a rerun still starts at batch `k` in that case only
because an absent checkpoint restarts from 0. -/
theorem c2_failure_checkpoint_amended (s B k : Nat) (table : String)
    (atWrite : Bool) (hB : 0 < B) (htab : pyContains table '.' = true)
    (hk : k < totalBatchesN s B) :
    (ingest_pg_to_bq_auto (envFailAt s (k : Int) atWrite) table (B : Int)
        none).store
      = some (some ⟨table, (k : Int) - 1, some ((min s (k * B) : Nat) : Int),
          (s : Int), (B : Int)⟩) ∧
    ((ingest_pg_to_bq_auto (envFailAt s (k : Int) atWrite) table (B : Int)
        none).out = .err .sourceError ∨
     (ingest_pg_to_bq_auto (envFailAt s (k : Int) atWrite) table (B : Int)
        none).out = .err .destError) ∧
    (ingest_pg_to_bq_auto (envNF s) table (B : Int)
        (some (some ⟨table, (k : Int) - 1, some ((min s (k * B) : Nat) : Int),
          (s : Int), (B : Int)⟩))).out = .ok (s : Int) ∧
    fetchedBatches (ingest_pg_to_bq_auto (envNF s) table (B : Int)
        (some (some ⟨table, (k : Int) - 1, some ((min s (k * B) : Nat) : Int),
          (s : Int), (B : Int)⟩))).trace
      = intRange (k : Int) (totalBatchesN s B - k) ∧
    (ingest_pg_to_bq_auto (envNF s) table (B : Int)
        (some (some ⟨table, (k : Int) - 1, some ((min s (k * B) : Nat) : Int),
          (s : Int), (B : Int)⟩))).store = none := by
  have hs : 0 < s := pos_of_lt_totalBatches s B k hB hk
  have hfl : ∀ i : Nat, i < k →
      (envFailAt s (k : Int) atWrite).fetchFails (i : Int) = false := by
    intro i hi
    show (!atWrite && ((i : Int) == (k : Int))) = false
    have hne : ((i : Int) == (k : Int)) = false := by
      rw [beq_eq_false_iff_ne]
      intro h
      have : i = k := by exact_mod_cast h
      omega
    rw [hne, Bool.and_false]
  have hwl : ∀ i : Nat, i < k →
      (envFailAt s (k : Int) atWrite).writeFails (i : Int) = false := by
    intro i hi
    show (atWrite && ((i : Int) == (k : Int))) = false
    have hne : ((i : Int) == (k : Int)) = false := by
      rw [beq_eq_false_iff_ne]
      intro h
      have : i = k := by exact_mod_cast h
      omega
    rw [hne, Bool.and_false]
  have hfail : (envFailAt s (k : Int) atWrite).fetchFails (k : Int) = true ∨
      ((envFailAt s (k : Int) atWrite).fetchFails (k : Int) = false ∧
       (envFailAt s (k : Int) atWrite).writeFails (k : Int) = true ∧
       rowsAt (envFailAt s (k : Int) atWrite).srcRows (B : Int) (k : Int) ≠ 0) := by
    cases atWrite
    · left
      show (!false && ((k : Int) == (k : Int))) = true
      simp
    · right
      refine ⟨?_, ?_, rows_pos s B k hB hk⟩
      · show (!true && ((k : Int) == (k : Int))) = false
        simp
      · show (true && ((k : Int) == (k : Int))) = true
        simp
  have hfa := xferLoop_failAt (envFailAt s (k : Int) atWrite) table B hB k
      hfl hwl hfail (totalBatchesN s B) 0 0 none (by omega) (by omega)
  rw [Nat.cast_zero] at hfa
  have hunf := hello_fresh_unfold (envFailAt s (k : Int) atWrite) table B
      htab rfl hs hB
  have hsrc : (envFailAt s (k : Int) atWrite).srcRows = s := rfl
  rw [hsrc] at hunf hfa
  have hseg0 : segRowsN s B (k - 0) 0 = min s (k * B) := by
    rw [Nat.sub_zero, segRowsN_from_zero s B k hB]
  rw [hseg0, zero_add] at hfa
  -- the failure-free second run
  have hloop := xferLoop_noFail (envNF s) table B true hB
      (fun i => rfl) (fun i => rfl) (totalBatchesN s B - k) k
      ((some ((min s (k * B) : Nat) : Int)).getD ((k : Int) * (B : Int)))
      (some (some ⟨table, (k : Int) - 1, some ((min s (k * B) : Nat) : Int),
        (s : Int), (B : Int)⟩))
  have hres := hello_resume_unfold (envNF s) table B k
      (some ((min s (k * B) : Nat) : Int)) htab rfl hs hB
  have hsrc2 : (envNF s).srcRows = s := rfl
  rw [hsrc2] at hloop hres
  have htotal : ((min s (k * B) : Nat) : Int)
      + ((segRowsN s B (totalBatchesN s B - k) k : Nat) : Int) = (s : Int) := by
    have := seg_total s B k hB (le_of_lt hk)
    omega
  refine ⟨?_, ?_, ?_, ?_, ?_⟩
  · rw [hunf]; exact hfa.1
  · rw [hunf]; exact hfa.2
  · rw [hres, hloop]
    show Outcome.ok ((some ((min s (k * B) : Nat) : Int)).getD
        ((k : Int) * (B : Int))
        + ((segRowsN s B (totalBatchesN s B - k) k : Nat) : Int))
      = Outcome.ok (s : Int)
    rw [Option.getD_some, htotal]
  · rw [hres, hloop]
    simp only [Option.getD]
    simp [fetchedBatches_canonSeg]
  · rw [hres, hloop]

/-- Witness for C2 amended: write failure at batch 1 of a 5-row, batch
size 2 hello job: checkpoint `last_completed_batch = 0`, uploaded 2,
rerun resumes at batch 1 and finishes with 5. -/
theorem c2_failure_checkpoint_amended_witness :
    (ingest_pg_to_bq_auto (envFailAt 5 (1 : Nat) true) "d.t" (2 : Nat)
        none).store
      = some (some ⟨"d.t", ((1 : Nat) : Int) - 1,
          some ((min 5 (1 * 2) : Nat) : Int), ((5 : Nat) : Int), ((2 : Nat) : Int)⟩) ∧
    ((ingest_pg_to_bq_auto (envFailAt 5 (1 : Nat) true) "d.t" (2 : Nat)
        none).out = .err .sourceError ∨
     (ingest_pg_to_bq_auto (envFailAt 5 (1 : Nat) true) "d.t" (2 : Nat)
        none).out = .err .destError) ∧
    (ingest_pg_to_bq_auto (envNF 5) "d.t" (2 : Nat)
        (some (some ⟨"d.t", ((1 : Nat) : Int) - 1,
          some ((min 5 (1 * 2) : Nat) : Int), ((5 : Nat) : Int),
          ((2 : Nat) : Int)⟩))).out = .ok ((5 : Nat) : Int) ∧
    fetchedBatches (ingest_pg_to_bq_auto (envNF 5) "d.t" (2 : Nat)
        (some (some ⟨"d.t", ((1 : Nat) : Int) - 1,
          some ((min 5 (1 * 2) : Nat) : Int), ((5 : Nat) : Int),
          ((2 : Nat) : Int)⟩))).trace
      = intRange ((1 : Nat) : Int) (totalBatchesN 5 2 - 1) ∧
    (ingest_pg_to_bq_auto (envNF 5) "d.t" (2 : Nat)
        (some (some ⟨"d.t", ((1 : Nat) : Int) - 1,
          some ((min 5 (1 * 2) : Nat) : Int), ((5 : Nat) : Int),
          ((2 : Nat) : Int)⟩))).store = none :=
  c2_failure_checkpoint_amended 5 2 1 "d.t" true (by decide) (by decide)
    (by decide)

/-- C1 counterexample: a ClickHouse run in replace mode (the default)
that loads a valid, plan-matching checkpoint with
`last_completed_batch = 0` nevertheless fetches batch 0 again — the
fetched batch list is `[0, 1]`, not only `[1]` — because
`if checkpoint and not replace` ignores the checkpoint whenever
`replace` is true. -/
theorem c1_counterexample :
    fetchedBatches (ingest_query_to_clickhouse (envNF 2) "t" 1 true
        (some (some ⟨"t", 0, some 1, 2, 1⟩))).trace = [0, 1] ∧
    fetchedBatches (ingest_query_to_clickhouse (envNF 2) "t" 1 true
        (some (some ⟨"t", 0, some 1, 2, 1⟩))).trace ≠ [1] := by
  exact ⟨by rfl, by decide⟩

/-- C1 amended: resuming from a valid checkpoint with
`last_completed_batch = k` whose recorded cumulative count equals the
rows of batches `0..k` fetches and writes exactly batches
`k+1..totalBatches-1` and reports the total row count `s` on completion
— in the hello path always, and in the ClickHouse path only in append
mode (`replace = False`); in replace mode the checkpoint is ignored and
every batch is re-fetched (see the counterexample), and the ClickHouse
path additionally issues a schema-sampling fetch (`LIMIT batch_size`,
not a per-batch fetch) on every run. -/
theorem c1_resume_amended (s B k : Nat) (table : String)
    (hB : 0 < B) (htab : pyContains table '.' = true)
    (hk : k + 1 ≤ totalBatchesN s B) :
    (ingest_pg_to_bq_auto (envNF s) table (B : Int)
        (some (some ⟨table, (k : Int), some ((segRowsN s B (k+1) 0 : Nat) : Int),
          (s : Int), (B : Int)⟩))).out = .ok (s : Int) ∧
    (ingest_pg_to_bq_auto (envNF s) table (B : Int)
        (some (some ⟨table, (k : Int), some ((segRowsN s B (k+1) 0 : Nat) : Int),
          (s : Int), (B : Int)⟩))).store = none ∧
    fetchedBatches (ingest_pg_to_bq_auto (envNF s) table (B : Int)
        (some (some ⟨table, (k : Int), some ((segRowsN s B (k+1) 0 : Nat) : Int),
          (s : Int), (B : Int)⟩))).trace
      = intRange ((k : Int) + 1) (totalBatchesN s B - (k + 1)) ∧
    writtenBatches (ingest_pg_to_bq_auto (envNF s) table (B : Int)
        (some (some ⟨table, (k : Int), some ((segRowsN s B (k+1) 0 : Nat) : Int),
          (s : Int), (B : Int)⟩))).trace
      = intRange ((k : Int) + 1) (totalBatchesN s B - (k + 1)) ∧
    (ingest_query_to_clickhouse (envNF s) table (B : Int) false
        (some (some ⟨table, (k : Int), some ((segRowsN s B (k+1) 0 : Nat) : Int),
          (s : Int), (B : Int)⟩))).out = .ok (s : Int) ∧
    (ingest_query_to_clickhouse (envNF s) table (B : Int) false
        (some (some ⟨table, (k : Int), some ((segRowsN s B (k+1) 0 : Nat) : Int),
          (s : Int), (B : Int)⟩))).store = none ∧
    fetchedBatches (ingest_query_to_clickhouse (envNF s) table (B : Int) false
        (some (some ⟨table, (k : Int), some ((segRowsN s B (k+1) 0 : Nat) : Int),
          (s : Int), (B : Int)⟩))).trace
      = intRange ((k : Int) + 1) (totalBatchesN s B - (k + 1)) ∧
    writtenBatches (ingest_query_to_clickhouse (envNF s) table (B : Int) false
        (some (some ⟨table, (k : Int), some ((segRowsN s B (k+1) 0 : Nat) : Int),
          (s : Int), (B : Int)⟩))).trace
      = intRange ((k : Int) + 1) (totalBatchesN s B - (k + 1)) := by
  have hs : 0 < s := pos_of_lt_totalBatches s B k hB (by omega)
  have hsrc : (envNF s).srcRows = s := rfl
  have hcp : ((k + 1 : Nat) : Int) - 1 = (k : Int) := by push_cast; ring
  have hcast : ((k : Int) + 1) = ((k + 1 : Nat) : Int) := by push_cast; ring
  set u0 : Int := ((segRowsN s B (k+1) 0 : Nat) : Int) with hu0
  have hres := hello_resume_unfold (envNF s) table B (k+1) (some u0) htab rfl hs hB
  have hres2 := ch_resume_unfold (envNF s) table B (k+1) (some u0) rfl hs hB rfl
  rw [hsrc, hcp] at hres hres2
  have hloop := xferLoop_noFail (envNF s) table B true hB
      (fun i => rfl) (fun i => rfl) (totalBatchesN s B - (k+1)) (k+1)
      ((some u0).getD (((k + 1 : Nat) : Int) * (B : Int)))
      (some (some ⟨table, (k : Int), some u0, (s : Int), (B : Int)⟩))
  have hloop2 := xferLoop_noFail (envNF s) table B false hB
      (fun i => rfl) (fun i => rfl) (totalBatchesN s B - (k+1)) (k+1)
      ((some u0).getD (((k + 1 : Nat) : Int) * (B : Int)))
      (some (some ⟨table, (k : Int), some u0, (s : Int), (B : Int)⟩))
  rw [hsrc] at hloop hloop2
  have htotal : u0 + ((segRowsN s B (totalBatchesN s B - (k+1)) (k+1) : Nat) : Int)
      = (s : Int) := by
    rw [hu0, segRowsN_from_zero s B (k+1) hB]
    have := seg_total s B (k+1) hB hk
    omega
  have hpos : ∀ j : Nat, (k+1) ≤ j → j < (k+1) + (totalBatchesN s B - (k+1)) →
      rowsAt (envNF s).srcRows (B : Int) (j : Int) ≠ 0 := by
    intro j h1 h2
    exact rows_pos s B j hB (by omega)
  refine ⟨?_, ?_, ?_, ?_, ?_, ?_, ?_, ?_⟩
  · rw [hres, hloop]
    show Outcome.ok ((some u0).getD (((k + 1 : Nat) : Int) * (B : Int))
        + ((segRowsN s B (totalBatchesN s B - (k+1)) (k+1) : Nat) : Int))
      = Outcome.ok (s : Int)
    rw [Option.getD_some, htotal]
  · rw [hres, hloop]
  · rw [hres, hloop, hcast]
    exact fetchedBatches_canonSeg (envNF s) table (B : Int) _ _ _ _
  · rw [hres, hloop, hcast]
    exact writtenBatches_canonSeg (envNF s) table B _ (k+1) _ _ hpos
  · rw [hres2, hloop2]
    show Outcome.ok ((some u0).getD (((k + 1 : Nat) : Int) * (B : Int))
        + ((segRowsN s B (totalBatchesN s B - (k+1)) (k+1) : Nat) : Int))
      = Outcome.ok (s : Int)
    rw [Option.getD_some, htotal]
  · rw [hres2, hloop2]
  · rw [hres2, hloop2, hcast]
    show fetchedBatches (.schemaFetch (B : Int) ::
        canonSeg (envNF s) table (B : Int) (totalBatchesN s B - (k+1))
          ((k + 1 : Nat) : Int) u0 true)
      = intRange ((k + 1 : Nat) : Int) (totalBatchesN s B - (k + 1))
    rw [show fetchedBatches (.schemaFetch (B : Int) ::
        canonSeg (envNF s) table (B : Int) (totalBatchesN s B - (k+1))
          ((k + 1 : Nat) : Int) u0 true)
      = fetchedBatches (canonSeg (envNF s) table (B : Int)
          (totalBatchesN s B - (k+1)) ((k + 1 : Nat) : Int) u0 true) from rfl]
    exact fetchedBatches_canonSeg (envNF s) table (B : Int) _ _ _ _
  · rw [hres2, hloop2, hcast]
    show writtenBatches (.schemaFetch (B : Int) ::
        canonSeg (envNF s) table (B : Int) (totalBatchesN s B - (k+1))
          ((k + 1 : Nat) : Int) u0 true)
      = intRange ((k + 1 : Nat) : Int) (totalBatchesN s B - (k + 1))
    rw [show writtenBatches (.schemaFetch (B : Int) ::
        canonSeg (envNF s) table (B : Int) (totalBatchesN s B - (k+1))
          ((k + 1 : Nat) : Int) u0 true)
      = writtenBatches (canonSeg (envNF s) table (B : Int)
          (totalBatchesN s B - (k+1)) ((k + 1 : Nat) : Int) u0 true) from rfl]
    exact writtenBatches_canonSeg (envNF s) table B _ (k+1) _ _ hpos

theorem ckpt_skip_schemaFetch (c u : Int) (l : Int) (t : List Ev) :
    ckptDiscipline c u (.schemaFetch l :: t) = ckptDiscipline c u t := rfl

theorem ckpt_skip_dropT (c u : Int) (s : String) (t : List Ev) :
    ckptDiscipline c u (.dropT s :: t) = ckptDiscipline c u t := rfl

theorem ckpt_skip_createT (c u : Int) (s : String) (t : List Ev) :
    ckptDiscipline c u (.createT s :: t) = ckptDiscipline c u t := rfl

theorem ckpt_skip_clear (c u : Int) (t : List Ev) :
    ckptDiscipline c u (.clear :: t) = ckptDiscipline c u t := rfl

/-- C4: in every run — fresh or resumed, with arbitrary injected fetch
and write failures — batches are processed in strictly ascending order
and every persisted checkpoint describes a contiguous prefix: each
per-batch fetch targets exactly one past the last checkpointed batch (so
the checkpoint of a successful batch is persisted before the next fetch
begins), each successful write is immediately followed by a save
recording that batch index and the total incremented by the batch's row
count, and the rollback save of the hello error handler re-asserts the
current prefix; `ckptDiscipline` scans a trace for exactly these
conditions. -/
theorem c4_checkpoint_ordering (s B k : Nat) (table : String) (rm : Bool)
    (fF wF : Int → Bool) (u0 : Int)
    (hB : 0 < B) (htab : pyContains table '.' = true)
    (hk : k ≤ totalBatchesN s B) (hs : 0 < s) :
    ckptDiscipline (-1) 0
      (ingest_pg_to_bq_auto ⟨s, false, false, fF, wF⟩ table (B : Int)
        none).trace = true ∧
    ckptDiscipline ((k : Int) - 1) u0
      (ingest_pg_to_bq_auto ⟨s, false, false, fF, wF⟩ table (B : Int)
        (some (some ⟨table, (k : Int) - 1, some u0, (s : Int), (B : Int)⟩))).trace
      = true ∧
    ckptDiscipline (-1) 0
      (ingest_query_to_clickhouse ⟨s, false, false, fF, wF⟩ table (B : Int)
        rm none).trace = true ∧
    ckptDiscipline ((k : Int) - 1) u0
      (ingest_query_to_clickhouse ⟨s, false, false, fF, wF⟩ table (B : Int)
        false
        (some (some ⟨table, (k : Int) - 1, some u0, (s : Int), (B : Int)⟩))).trace
      = true := by
  set env : Env := ⟨s, false, false, fF, wF⟩ with henv
  have hposF : ∀ j : Nat, 0 ≤ j → j < 0 + totalBatchesN s B →
      rowsAt env.srcRows (B : Int) (j : Int) ≠ 0 := by
    intro j h1 h2
    exact rows_pos s B j hB (by omega)
  have hposR : ∀ j : Nat, k ≤ j → j < k + (totalBatchesN s B - k) →
      rowsAt env.srcRows (B : Int) (j : Int) ≠ 0 := by
    intro j h1 h2
    exact rows_pos s B j hB (by omega)
  have hdF : ∀ so st, ckptDiscipline ((0 : Int) - 1) 0
      (xferLoop env table (B : Int) so (totalBatchesN s B) 0 0 st).trace
        = true := by
    intro so st
    have h := xferLoop_discipline env table B so (totalBatchesN s B) 0 0 st hposF
    rw [Nat.cast_zero] at h
    exact h
  have hdR : ∀ so st, ckptDiscipline ((k : Int) - 1)
      ((some u0).getD ((k : Int) * (B : Int)))
      (xferLoop env table (B : Int) so (totalBatchesN s B - k) (k : Int)
        ((some u0).getD ((k : Int) * (B : Int))) st).trace = true := by
    intro so st
    exact xferLoop_discipline env table B so (totalBatchesN s B - k) k
      ((some u0).getD ((k : Int) * (B : Int))) st hposR
  refine ⟨?_, ?_, ?_, ?_⟩
  · rw [hello_fresh_unfold env table B htab rfl hs hB]
    exact hdF true none
  · rw [hello_resume_unfold env table B k (some u0) htab rfl hs hB]
    exact hdR true _
  · rw [ch_nocp_unfold env table B rm rfl hs hB rfl]
    cases rm <;>
      simp only [Bool.false_eq_true, if_false, if_true, List.nil_append,
        List.cons_append, ckpt_skip_schemaFetch, ckpt_skip_dropT,
        ckpt_skip_createT] <;>
      exact hdF false none
  · rw [ch_resume_unfold env table B k (some u0) rfl hs hB rfl]
    simp only [ckpt_skip_schemaFetch]
    exact hdR false _

/-- Witness for C1 amended: a 3-row, batch-size-2 job resumed from
`last_completed_batch = 0` processes exactly batch 1 and reports 3. -/
theorem c1_resume_amended_witness :
    (ingest_pg_to_bq_auto (envNF 3) "d.t" ((2 : Nat) : Int)
        (some (some ⟨"d.t", ((0 : Nat) : Int),
          some ((segRowsN 3 2 (0+1) 0 : Nat) : Int),
          ((3 : Nat) : Int), ((2 : Nat) : Int)⟩))).out = .ok ((3 : Nat) : Int) ∧
    (ingest_pg_to_bq_auto (envNF 3) "d.t" ((2 : Nat) : Int)
        (some (some ⟨"d.t", ((0 : Nat) : Int),
          some ((segRowsN 3 2 (0+1) 0 : Nat) : Int),
          ((3 : Nat) : Int), ((2 : Nat) : Int)⟩))).store = none ∧
    fetchedBatches (ingest_pg_to_bq_auto (envNF 3) "d.t" ((2 : Nat) : Int)
        (some (some ⟨"d.t", ((0 : Nat) : Int),
          some ((segRowsN 3 2 (0+1) 0 : Nat) : Int),
          ((3 : Nat) : Int), ((2 : Nat) : Int)⟩))).trace
      = intRange (((0 : Nat) : Int) + 1) (totalBatchesN 3 2 - (0 + 1)) ∧
    writtenBatches (ingest_pg_to_bq_auto (envNF 3) "d.t" ((2 : Nat) : Int)
        (some (some ⟨"d.t", ((0 : Nat) : Int),
          some ((segRowsN 3 2 (0+1) 0 : Nat) : Int),
          ((3 : Nat) : Int), ((2 : Nat) : Int)⟩))).trace
      = intRange (((0 : Nat) : Int) + 1) (totalBatchesN 3 2 - (0 + 1)) ∧
    (ingest_query_to_clickhouse (envNF 3) "d.t" ((2 : Nat) : Int) false
        (some (some ⟨"d.t", ((0 : Nat) : Int),
          some ((segRowsN 3 2 (0+1) 0 : Nat) : Int),
          ((3 : Nat) : Int), ((2 : Nat) : Int)⟩))).out = .ok ((3 : Nat) : Int) ∧
    (ingest_query_to_clickhouse (envNF 3) "d.t" ((2 : Nat) : Int) false
        (some (some ⟨"d.t", ((0 : Nat) : Int),
          some ((segRowsN 3 2 (0+1) 0 : Nat) : Int),
          ((3 : Nat) : Int), ((2 : Nat) : Int)⟩))).store = none ∧
    fetchedBatches (ingest_query_to_clickhouse (envNF 3) "d.t"
        ((2 : Nat) : Int) false
        (some (some ⟨"d.t", ((0 : Nat) : Int),
          some ((segRowsN 3 2 (0+1) 0 : Nat) : Int),
          ((3 : Nat) : Int), ((2 : Nat) : Int)⟩))).trace
      = intRange (((0 : Nat) : Int) + 1) (totalBatchesN 3 2 - (0 + 1)) ∧
    writtenBatches (ingest_query_to_clickhouse (envNF 3) "d.t"
        ((2 : Nat) : Int) false
        (some (some ⟨"d.t", ((0 : Nat) : Int),
          some ((segRowsN 3 2 (0+1) 0 : Nat) : Int),
          ((3 : Nat) : Int), ((2 : Nat) : Int)⟩))).trace
      = intRange (((0 : Nat) : Int) + 1) (totalBatchesN 3 2 - (0 + 1)) :=
  c1_resume_amended 3 2 0 "d.t" (by decide) (by decide) (by decide)

/-- Witness for C4 at a concrete job with an injected fetch failure at
batch 2: both fresh and resumed runs of both entry points keep the
checkpoint discipline. -/
theorem c4_checkpoint_ordering_witness :
    ckptDiscipline (-1) 0
      (ingest_pg_to_bq_auto ⟨5, false, false, fun i => i == 2, fun _ => false⟩
        "d.t" ((2 : Nat) : Int) none).trace = true ∧
    ckptDiscipline (((1 : Nat) : Int) - 1) (2 : Int)
      (ingest_pg_to_bq_auto ⟨5, false, false, fun i => i == 2, fun _ => false⟩
        "d.t" ((2 : Nat) : Int)
        (some (some ⟨"d.t", ((1 : Nat) : Int) - 1, some (2 : Int),
          ((5 : Nat) : Int), ((2 : Nat) : Int)⟩))).trace = true ∧
    ckptDiscipline (-1) 0
      (ingest_query_to_clickhouse ⟨5, false, false, fun i => i == 2, fun _ => false⟩
        "d.t" ((2 : Nat) : Int) true none).trace = true ∧
    ckptDiscipline (((1 : Nat) : Int) - 1) (2 : Int)
      (ingest_query_to_clickhouse ⟨5, false, false, fun i => i == 2, fun _ => false⟩
        "d.t" ((2 : Nat) : Int) false
        (some (some ⟨"d.t", ((1 : Nat) : Int) - 1, some (2 : Int),
          ((5 : Nat) : Int), ((2 : Nat) : Int)⟩))).trace = true :=
  c4_checkpoint_ordering 5 2 1 "d.t" true (fun i => i == 2) (fun _ => false)
    (2 : Int) (by decide) (by decide) (by decide) (by decide)
